import Mathlib

/-!
Verification of the adaptive decision engine of The-Miner.

This file gives a shallow embedding, in Lean, of the four rule/action control
subsystems of the repository — profit switching (`src/monitoring/profit_switcher.py`),
alerting (`src/monitoring/alerting_system.py`), resource scaling
(`src/monitoring/resource_monitor.py`) and error recovery
(`src/utils/error_recovery.py`) — and proves or refutes the specified
properties of these subsystems.

Modelling conventions:
* Python floats and `time.time()` timestamps are modelled as rationals (`ℚ`);
  all arithmetic in these modules is elementary, so `ℚ` is exact where floats
  round, which does not affect any comparison appearing in the claims.
* Python dictionaries are modelled as insertion-ordered association lists
  (`List (key × value)`); `d[k] = v` replaces in place when the key is present
  and appends otherwise, as CPython does.
* Methods that read the wall clock receive the current time `now : ℚ`
  explicitly.  A raised `ZeroDivisionError` is modelled by an `Option` result
  (`none` = the call raises).
* Logging calls, the per-severity statistics maps, and probes of the external
  environment (`psutil`, SMTP/webhook transports) are not observable by any
  claim; notification dispatch is modelled by an explicit event log so that
  "one send per channel" is provable.
-/

namespace TheMiner

/-- Python `int()` applied to a float: truncation toward zero.  A rational
`q` equals `q.num / q.den` exactly, and `Int.tdiv` truncates toward zero. -/
def pyInt (q : ℚ) : ℤ := Int.tdiv q.num q.den

namespace ProfitSwitching

/-- `SwitchStrategy` enum of `profit_switcher.py`. -/
inductive SwitchStrategy
  | immediate
  | gradual
  | threshold
  | predictive
deriving DecidableEq, Repr

/-- `ProfitabilityData` dataclass of `profit_switcher.py`. -/
structure ProfitabilityData where
  algorithm : String
  hashrate : ℚ
  power_usage : ℚ
  revenue_per_hour : ℚ
  cost_per_hour : ℚ
  profit_per_hour : ℚ
  efficiency : ℚ
  timestamp : ℚ
deriving DecidableEq, Repr

/-- The mutable state of a `ProfitSwitcher` instance, together with its
configuration.  The threading fields and the simulated market-price table are
omitted: no claim observes them. -/
structure ProfitSwitcher where
  switch_strategy : SwitchStrategy
  switch_threshold : ℚ
  min_switch_interval : ℚ
  current_algorithm : Option String
  profitability_data : List (String × ProfitabilityData)
  switch_history : List (ℚ × String × String)
  last_switch_time : ℚ
deriving DecidableEq, Repr

/-- `ProfitSwitcher._get_algorithm_history(algorithm, minutes)`: one sample of
the algorithm's current `profit_per_hour` is appended per switch-history entry
newer than the cutoff that mentions the algorithm. -/
def get_algorithm_history (s : ProfitSwitcher) (now : ℚ) (algorithm : String)
    (minutes : ℚ) : List ℚ :=
  let cutoff_time := now - minutes * 60
  (s.switch_history.filter
      (fun e => decide (e.1 ≥ cutoff_time) && (e.2.1 == algorithm || e.2.2 == algorithm))).filterMap
    (fun _ => (s.profitability_data.lookup algorithm).map (·.profit_per_hour))

/-- `ProfitSwitcher._calculate_trend`: ordinary-least-squares slope over the
series indexed by `0, 1, …`.  For `n ≥ 2` the denominator is nonzero, so the
Python division never raises there and agrees with `ℚ` division. -/
def calculate_trend (history : List ℚ) : ℚ :=
  if history.length < 2 then 0
  else
    let n : ℚ := history.length
    let x : List ℚ := (List.range history.length).map (fun i => (i : ℚ))
    let sum_x := x.sum
    let sum_y := history.sum
    let sum_xy := ((x.zip history).map (fun p => p.1 * p.2)).sum
    let sum_x2 := (x.map (fun v => v * v)).sum
    (n * sum_xy - sum_x * sum_y) / (n * sum_x2 - sum_x * sum_x)

/-- `ProfitSwitcher._predictive_switch_decision`.  The result is `none` when
the Python code would raise `ZeroDivisionError` (insufficient-history fallback
with a zero current profit). -/
def predictive_switch_decision (s : ProfitSwitcher) (now : ℚ)
    (current_data new_data : ProfitabilityData) : Option Bool :=
  let current_history := get_algorithm_history s now current_data.algorithm 30
  let new_history := get_algorithm_history s now new_data.algorithm 30
  if current_history.length < 3 ∨ new_history.length < 3 then
    if current_data.profit_per_hour = 0 then none
    else
      some (decide ((new_data.profit_per_hour - current_data.profit_per_hour)
        / current_data.profit_per_hour ≥ s.switch_threshold))
  else
    let current_trend := calculate_trend current_history
    let new_trend := calculate_trend new_history
    let current_predicted := current_data.profit_per_hour + current_trend * 10
    let new_predicted := new_data.profit_per_hour + new_trend * 10
    some (decide (new_predicted > current_predicted * (105 / 100)))

/-- `ProfitSwitcher._should_switch(new_algorithm)`.  `none` models a raised
`ZeroDivisionError` (division by the current algorithm's `profit_per_hour`). -/
def should_switch (s : ProfitSwitcher) (now : ℚ) (new_algorithm : String) : Option Bool :=
  match s.current_algorithm with
  | none => some true
  | some current =>
    if current = new_algorithm then some false
    else if now - s.last_switch_time < s.min_switch_interval then some false
    else
      match s.profitability_data.lookup current, s.profitability_data.lookup new_algorithm with
      | some current_data, some new_data =>
        match s.switch_strategy with
        | .immediate =>
          some (decide (new_data.profit_per_hour > current_data.profit_per_hour))
        | .threshold =>
          if current_data.profit_per_hour = 0 then none
          else
            some (decide ((new_data.profit_per_hour - current_data.profit_per_hour)
              / current_data.profit_per_hour ≥ s.switch_threshold))
        | .gradual =>
          if current_data.profit_per_hour = 0 then none
          else
            some (decide ((new_data.profit_per_hour - current_data.profit_per_hour)
              / current_data.profit_per_hour ≥ s.switch_threshold * (1 / 2)))
        | .predictive => predictive_switch_decision s now current_data new_data
      | _, _ => some false

/-- `ProfitSwitcher.record_switch(from, to)`: appends to the switch-history
log unconditionally, keeps the last 100 entries, and updates the current
algorithm and the last-switch time. -/
def record_switch (s : ProfitSwitcher) (now : ℚ)
    (from_algorithm to_algorithm : String) : ProfitSwitcher :=
  let history := s.switch_history ++ [(now, from_algorithm, to_algorithm)]
  let history := if history.length > 100 then history.drop (history.length - 100) else history
  { s with
    switch_history := history
    current_algorithm := some to_algorithm
    last_switch_time := now }

/-- A freshly configured switcher (threshold strategy, 10% threshold,
300-second minimum switch interval: the constructor defaults). -/
def exampleSwitcher : ProfitSwitcher :=
  { switch_strategy := .threshold
    switch_threshold := 1 / 10
    min_switch_interval := 300
    current_algorithm := none
    profitability_data := []
    switch_history := []
    last_switch_time := 0 }

/-- Profitability record with a prescribed algorithm name and profit. -/
def mkData (algorithm : String) (profit : ℚ) : ProfitabilityData :=
  { algorithm := algorithm
    hashrate := 5000
    power_usage := 100
    revenue_per_hour := profit + 1
    cost_per_hour := 1
    profit_per_hour := profit
    efficiency := 50
    timestamp := 900 }

/-- Switcher currently on `sha256` (profit 100) with candidate `ethash`
holding the given profit; last switch long ago. -/
def thresholdSwitcher (candidateProfit : ℚ) : ProfitSwitcher :=
  { exampleSwitcher with
    current_algorithm := some "sha256"
    profitability_data :=
      [("sha256", mkData "sha256" 100), ("ethash", mkData "ethash" candidateProfit)]
    last_switch_time := 0 }

/-- The threshold-strategy example reconfigured to the predictive strategy. -/
def predictiveSwitcher : ProfitSwitcher :=
  { thresholdSwitcher 115 with switch_strategy := .predictive }

/-- Switcher whose current algorithm has `profit_per_hour = 0`. -/
def zeroProfitSwitcher : ProfitSwitcher :=
  { exampleSwitcher with
    current_algorithm := some "sha256"
    profitability_data :=
      [("sha256", mkData "sha256" 0), ("ethash", mkData "ethash" 115)] }

end ProfitSwitching

namespace Alerting

/-- `AlertSeverity` enum of `alerting_system.py`. -/
inductive AlertSeverity
  | info
  | warning
  | error
  | critical
deriving DecidableEq, Repr

/-- `AlertStatus` enum of `alerting_system.py`. -/
inductive AlertStatus
  | active
  | resolved
  | suppressed
deriving DecidableEq, Repr

/-- The `current_metrics` sub-dictionary of the resource monitor's stats, as
read by the threshold alert rules (`metrics.get("current_metrics")`).  Fields
never read by any alert rule are omitted. -/
structure CurrentMetrics where
  cpu_percent : ℚ
  memory_percent : ℚ
  disk_percent : ℚ
  temperature : ℚ
deriving DecidableEq, Repr

/-- The metrics dictionary handed to every rule each monitoring iteration.
`current_metrics = none` models an absent or falsy `"current_metrics"` key. -/
structure MetricsData where
  current_metrics : Option CurrentMetrics
  mining_stopped : Bool
  wallet_disconnected : Bool
  pool_connection_lost : Bool
deriving DecidableEq, Repr

/-- `Alert` dataclass of `alerting_system.py`.  `metadata` is kept as a
string-keyed association list of rendered values. -/
structure Alert where
  id : String
  title : String
  message : String
  severity : AlertSeverity
  status : AlertStatus
  component : String
  timestamp : ℚ
  resolved_timestamp : Option ℚ
  metadata : List (String × String)
  suppression_duration : Option ℚ
deriving DecidableEq, Repr

/-- An `AlertRule` object: the base-class state (`name`, `severity`,
`cooldown`, `last_triggered`, `trigger_count`, `suppressed_until`) together
with the subclass overrides `_evaluate_condition`, `_get_message` and
`_get_component` (a boolean condition and two constants in every subclass). -/
structure AlertRule where
  name : String
  severity : AlertSeverity
  cooldown : ℚ
  last_triggered : ℚ
  trigger_count : ℕ
  suppressed_until : ℚ
  evaluate_condition : MetricsData → Bool
  message : String
  component : String

/-- `AlertRule.should_trigger`: cooldown gate, then suppression gate, then
the subclass condition. -/
def AlertRule.should_trigger (r : AlertRule) (now : ℚ) (metrics : MetricsData) : Bool :=
  if now - r.last_triggered < r.cooldown then false
  else if now < r.suppressed_until then false
  else r.evaluate_condition metrics

/-- `AlertRule.trigger`: sets `last_triggered = now`, increments the trigger
counter, and returns the updated rule with the created `Alert`; the alert id
is the rule name joined with the truncated trigger time
(`f"{self.name}_{int(self.last_triggered)}"`). -/
def AlertRule.trigger (r : AlertRule) (now : ℚ) : AlertRule × Alert :=
  let r' := { r with last_triggered := now, trigger_count := r.trigger_count + 1 }
  (r',
    { id := r.name ++ "_" ++ toString (pyInt now)
      title := r.name
      message := r.message
      severity := r.severity
      status := .active
      component := r.component
      timestamp := now
      resolved_timestamp := none
      metadata := [("rule", r.name), ("trigger_count", toString r'.trigger_count)]
      suppression_duration := none })

/-- `AlertRule.suppress(duration)`. -/
def AlertRule.suppress (r : AlertRule) (now duration : ℚ) : AlertRule :=
  { r with suppressed_until := now + duration }

/-- `CPUAlertRule(threshold)`: severity warning, cooldown 300, condition
`current_metrics.cpu_percent > threshold` (false when the metrics
sub-dictionary is absent). -/
def CPUAlertRule (threshold : ℚ) : AlertRule :=
  { name := "High CPU Usage"
    severity := .warning
    cooldown := 300
    last_triggered := 0
    trigger_count := 0
    suppressed_until := 0
    evaluate_condition := fun m =>
      match m.current_metrics with
      | none => false
      | some c => decide (c.cpu_percent > threshold)
    message := "CPU usage is above " ++ toString threshold ++ "%"
    component := "cpu" }

/-- A custom rule registered through `add_alert_rule`: a direct `AlertRule`
subclass whose condition is the mining-health flag and whose cooldown is the
constructor argument (the base constructor accepts any cooldown). -/
def miningWatchRule (cooldown : ℚ) : AlertRule :=
  { name := "Mining Watch"
    severity := .warning
    cooldown := cooldown
    last_triggered := 0
    trigger_count := 0
    suppressed_until := 0
    evaluate_condition := fun m => m.mining_stopped
    message := "Mining stopped"
    component := "mining" }

/-- The `AlertingSystem` state observed by the claims.  Channel objects are
identified by name; a `channel.send_alert(alert)` call is recorded as an
event in the `notifications` log.  The logger and the per-severity and
per-component statistics dictionaries are omitted (no claim reads them). -/
structure AlertingSystem where
  alert_rules : List AlertRule
  alert_channels : List String
  active_alerts : List (String × Alert)
  alert_history : List Alert
  max_history : ℕ
  total_alerts : ℕ
  notifications : List (String × Alert)

/-- CPython dictionary assignment `d[k] = v` on an insertion-ordered
association list: replace in place when the key is present, append
otherwise. -/
def dictInsert (l : List (String × Alert)) (k : String) (v : Alert) :
    List (String × Alert) :=
  if (l.map Prod.fst).contains k then
    l.map (fun p => if p.1 = k then (k, v) else p)
  else l ++ [(k, v)]

/-- `AlertingSystem._send_notifications`: one `send_alert` per registered
channel, recorded in the notification log. -/
def send_notifications (s : AlertingSystem) (a : Alert) : AlertingSystem :=
  { s with notifications := s.notifications ++ s.alert_channels.map (fun c => (c, a)) }

/-- `AlertingSystem._handle_alert`: store the alert in the active dictionary
keyed by `alert.id`, append it to the bounded history, bump the counters, and
dispatch notifications. -/
def handle_alert (s : AlertingSystem) (a : Alert) : AlertingSystem :=
  let s := { s with active_alerts := dictInsert s.active_alerts a.id a }
  let history := s.alert_history ++ [a]
  let history := if history.length > s.max_history then history.tail else history
  let s := { s with alert_history := history, total_alerts := s.total_alerts + 1 }
  send_notifications s a

/-- The per-alert body of `AlertingSystem._check_resolved_alerts`: find the
first rule whose `name` equals the alert's `title`; if it exists and its
`should_trigger` is false, the alert is resolved (status and resolution
timestamp set).  `none` means the alert stays active. -/
def resolve_decision (rules : List AlertRule) (now : ℚ) (metrics : MetricsData)
    (a : Alert) : Option Alert :=
  match rules.find? (fun r => r.name == a.title) with
  | some rule =>
    if rule.should_trigger now metrics then none
    else some { a with status := .resolved, resolved_timestamp := some now }
  | none => none

/-- `AlertingSystem._check_resolved_alerts`: resolve every active alert whose
governing rule's `should_trigger` is now false, dispatch one resolution
notification per channel for each, and delete them from the active set. -/
def check_resolved_alerts (s : AlertingSystem) (now : ℚ) (metrics : MetricsData) :
    AlertingSystem :=
  let resolved := s.active_alerts.filterMap
    (fun p => resolve_decision s.alert_rules now metrics p.2)
  let s' := resolved.foldl (fun acc a => send_notifications acc a) s
  { s' with
    active_alerts := s.active_alerts.filter
      (fun p => (resolve_decision s.alert_rules now metrics p.2).isNone) }

/-- The rule-evaluation pass of one `_monitoring_loop` iteration: every rule
is checked in order; a firing rule is triggered (mutating the rule) and the
resulting alert handed to `_handle_alert`. -/
def run_alert_rules (s : AlertingSystem) (now : ℚ) (metrics : MetricsData) :
    AlertingSystem :=
  let step := fun (acc : AlertingSystem × List AlertRule) (r : AlertRule) =>
    if r.should_trigger now metrics then
      let t := r.trigger now
      (handle_alert acc.1 t.2, acc.2 ++ [t.1])
    else (acc.1, acc.2 ++ [r])
  let res := s.alert_rules.foldl step (s, ([] : List AlertRule))
  { res.1 with alert_rules := res.2 }

/-- One full `_monitoring_loop` iteration at time `now` with metrics
`metrics`: rule evaluation followed by the resolution-reconciliation pass. -/
def monitoring_iteration (s : AlertingSystem) (now : ℚ) (metrics : MetricsData) :
    AlertingSystem :=
  check_resolved_alerts (run_alert_rules s now metrics) now metrics

/-- Number of active alerts whose governing rule (title) is `t`. -/
def count_active_with_title (s : AlertingSystem) (t : String) : ℕ :=
  (s.active_alerts.filter (fun p => p.2.title == t)).length

/-- Alerting system holding one custom zero-cooldown rule and no channels. -/
def miningSystem : AlertingSystem :=
  { alert_rules := [miningWatchRule 0]
    alert_channels := []
    active_alerts := []
    alert_history := []
    max_history := 1000
    total_alerts := 0
    notifications := [] }

/-- Metrics snapshot with the mining-stopped flag raised. -/
def miningDownMetrics : MetricsData :=
  { current_metrics := none
    mining_stopped := true
    wallet_disconnected := false
    pool_connection_lost := false }

/-- Metrics snapshot with CPU at 96%. -/
def highCpuMetrics : MetricsData :=
  { current_metrics := some
      { cpu_percent := 96, memory_percent := 0, disk_percent := 0, temperature := 0 }
    mining_stopped := false
    wallet_disconnected := false
    pool_connection_lost := false }

/-- The CPU warning rule right after it fired at time 100, and the alert that
firing created. -/
def firedCpuRule : AlertRule := ((CPUAlertRule 85).trigger 100).1

/-- The alert created by `firedCpuRule`'s firing. -/
def firedCpuAlert : Alert := ((CPUAlertRule 85).trigger 100).2

/-- Alerting system immediately after the CPU rule fired at time 100: the
alert is active and recorded in the history. -/
def cpuSystem : AlertingSystem :=
  { alert_rules := [firedCpuRule]
    alert_channels := ["webhook"]
    active_alerts := [(firedCpuAlert.id, firedCpuAlert)]
    alert_history := [firedCpuAlert]
    max_history := 1000
    total_alerts := 1
    notifications := [] }

end Alerting

namespace Scaling

/-- The fields of `ResourceMetrics` read by the scaling-policy conditions and
actions; the remaining sampler fields (memory sizes, network, process count,
load average, status) are never consulted by a policy. -/
structure ResourceMetrics where
  timestamp : ℚ
  cpu_percent : ℚ
  memory_percent : ℚ
  disk_percent : ℚ
  temperature : ℚ
deriving DecidableEq, Repr

/-- The shared mining configuration object mutated by the scaling actions
(`miner_instance.config`); `getattr` defaults never fire in the model because
both fields are always present. -/
structure MinerConfig where
  cpu_threads : ℤ
  intensity : ℚ
deriving DecidableEq, Repr

/-- A `ScalingPolicy` object: base-class state (`threshold`, `cooldown`,
`last_action`, `action_count`) plus the subclass state `σ` and the subclass
overrides `_evaluate_condition` and `_scale_action` (which returns the
updated subclass state and the success flag). -/
structure ScalingPolicy (σ : Type) where
  name : String
  threshold : ℚ
  cooldown : ℚ
  last_action : ℚ
  action_count : ℕ
  state : σ
  evaluate_condition : ℚ → σ → ResourceMetrics → Bool
  scale_action : σ → ResourceMetrics → σ × Bool

/-- `ScalingPolicy.should_scale`: cooldown gate, then the subclass
condition. -/
def ScalingPolicy.should_scale {σ : Type} (p : ScalingPolicy σ) (now : ℚ)
    (metrics : ResourceMetrics) : Bool :=
  if now - p.last_action < p.cooldown then false
  else p.evaluate_condition p.threshold p.state metrics

/-- `ScalingPolicy.execute_scale`: run the action only when `should_scale`
holds; on success record `last_action = now` and bump the action counter, on
failure leave the cooldown clock untouched. -/
def ScalingPolicy.execute_scale {σ : Type} (p : ScalingPolicy σ) (now : ℚ)
    (metrics : ResourceMetrics) : ScalingPolicy σ × Bool :=
  if p.should_scale now metrics then
    let r := p.scale_action p.state metrics
    if r.2 then
      ({ p with state := r.1, last_action := now, action_count := p.action_count + 1 }, true)
    else ({ p with state := r.1 }, false)
  else (p, false)

/-- `CPUScalingPolicy._scale_action`: remember the original thread count on
first use, clamp `cpu_threads - 1` at 1, and succeed only when the count
actually changed. -/
def cpu_scale_action (st : MinerConfig × Option ℤ) (_metrics : ResourceMetrics) :
    (MinerConfig × Option ℤ) × Bool :=
  let config := st.1
  let original_threads :=
    match st.2 with
    | none => some config.cpu_threads
    | some o => some o
  let current_threads := config.cpu_threads
  let new_threads := max 1 (current_threads - 1)
  if new_threads ≠ current_threads then
    (({ config with cpu_threads := new_threads }, original_threads), true)
  else ((config, original_threads), false)

/-- `CPUScalingPolicy(miner_instance)`: name `cpu_scaling`, threshold 85,
cooldown 120, condition `cpu_percent > threshold`.  (`max_threads` is stored
by the constructor but never read.) -/
def CPUScalingPolicy (config : MinerConfig) : ScalingPolicy (MinerConfig × Option ℤ) :=
  { name := "cpu_scaling"
    threshold := 85
    cooldown := 120
    last_action := 0
    action_count := 0
    state := (config, none)
    evaluate_condition := fun threshold _st m => decide (m.cpu_percent > threshold)
    scale_action := cpu_scale_action }

/-- `IntensityScalingPolicy._scale_action`: remember the original intensity
on first use, clamp `intensity * 0.9` at 0.3, and succeed only when the
intensity actually changed. -/
def intensity_scale_action (st : MinerConfig × Option ℚ) (_metrics : ResourceMetrics) :
    (MinerConfig × Option ℚ) × Bool :=
  let config := st.1
  let original_intensity :=
    match st.2 with
    | none => some config.intensity
    | some o => some o
  let current_intensity := config.intensity
  let new_intensity := max (3 / 10) (current_intensity * (9 / 10))
  if new_intensity ≠ current_intensity then
    (({ config with intensity := new_intensity }, original_intensity), true)
  else ((config, original_intensity), false)

/-- `IntensityScalingPolicy(miner_instance)`: name `intensity_scaling`,
threshold 75, cooldown 240, condition `cpu_percent > threshold or
memory_percent > threshold`. -/
def IntensityScalingPolicy (config : MinerConfig) : ScalingPolicy (MinerConfig × Option ℚ) :=
  { name := "intensity_scaling"
    threshold := 75
    cooldown := 240
    last_action := 0
    action_count := 0
    state := (config, none)
    evaluate_condition := fun threshold _st m =>
      decide (m.cpu_percent > threshold) || decide (m.memory_percent > threshold)
    scale_action := intensity_scale_action }

/-- Metrics snapshot with CPU at 96%. -/
def cpu96Metrics : ResourceMetrics :=
  { timestamp := 1000
    cpu_percent := 96
    memory_percent := 50
    disk_percent := 40
    temperature := 55 }

/-- Default mining configuration (4 CPU threads, intensity 0.8). -/
def defaultConfig : MinerConfig :=
  { cpu_threads := 4, intensity := 8 / 10 }

end Scaling

namespace Recovery

/-- `ErrorSeverity` enum of `error_recovery.py`. -/
inductive ErrorSeverity
  | low
  | medium
  | high
  | critical
deriving DecidableEq, Repr

/-- `ErrorEvent` dataclass.  The exception object and the captured traceback
string are opaque diagnostics folded into `message`. -/
structure ErrorEvent where
  timestamp : ℚ
  severity : ErrorSeverity
  component : String
  message : String
  recovery_attempts : ℕ
  resolved : Bool
deriving DecidableEq, Repr

/-- A `RecoveryAction` object: base-class state plus the subclass `_recover`
override, modelled as an oracle on the error event.  `recover e = none`
models `_recover` raising an exception (`execute` then re-raises after
counting the failure); `some b` is a normal return. -/
structure RecoveryAction where
  name : String
  max_attempts : ℕ
  cooldown : ℚ
  last_attempt : ℚ
  success_count : ℕ
  failure_count : ℕ
  recover : ErrorEvent → Option Bool

instance : Inhabited RecoveryAction :=
  ⟨{ name := ""
     max_attempts := 3
     cooldown := 60
     last_attempt := 0
     success_count := 0
     failure_count := 0
     recover := fun _ => some false }⟩

/-- `RecoveryAction.can_attempt`: strict cooldown comparison and the bounded
failure ceiling. -/
def RecoveryAction.can_attempt (a : RecoveryAction) (now : ℚ) : Bool :=
  decide (now - a.last_attempt > a.cooldown) && decide (a.failure_count < a.max_attempts)

/-- `RecoveryAction.execute`: gate on `can_attempt`, stamp the attempt time,
run `_recover`, and count the outcome.  The second component is `some true`
on success, `some false` on a normal failure (or a refused attempt), and
`none` when `_recover` raised and `execute` re-raised. -/
def RecoveryAction.execute (a : RecoveryAction) (now : ℚ) (e : ErrorEvent) :
    RecoveryAction × Option Bool :=
  if a.can_attempt now then
    let a' := { a with last_attempt := now }
    match a.recover e with
    | some true => ({ a' with success_count := a'.success_count + 1 }, some true)
    | some false => ({ a' with failure_count := a'.failure_count + 1 }, some false)
    | none => ({ a' with failure_count := a'.failure_count + 1 }, none)
  else (a, some false)

/-- The `ErrorRecoveryManager` state observed by the claims.  Actions are
held in the `recovery_actions` store and referenced by index from the
per-component registry, mirroring the shared mutable action objects.
Signal handlers, the logger, the `error_patterns` counter dictionary and the
`psutil`-probing `_check_system_health` pass are omitted: they observe only
the external environment. -/
structure ErrorRecoveryManager where
  error_history : List ErrorEvent
  max_history : ℕ
  recovery_actions : List RecoveryAction
  component_recoveries : List (String × List ℕ)
  total_errors : ℕ
  resolved_errors : ℕ
  critical_errors : ℕ

/-- `ErrorRecoveryManager.register_recovery_action(action, component)`. -/
def register_recovery_action (m : ErrorRecoveryManager) (a : RecoveryAction)
    (component : String) : ErrorRecoveryManager :=
  let idx := m.recovery_actions.length
  let cr :=
    match m.component_recoveries.lookup component with
    | some _ => m.component_recoveries.map
        (fun p => if p.1 = component then (p.1, p.2 ++ [idx]) else p)
    | none => m.component_recoveries ++ [(component, [idx])]
  { m with recovery_actions := m.recovery_actions ++ [a], component_recoveries := cr }

/-- `ErrorRecoveryManager._should_attempt_recovery`: refuse critical errors,
and refuse when more than 10 events (of any component) in the history — which
already contains the event being handled — are younger than 5 minutes. -/
def should_attempt_recovery (m : ErrorRecoveryManager) (now : ℚ) (e : ErrorEvent) : Bool :=
  if e.severity = .critical then false
  else
    let recent_errors := m.error_history.filter (fun ev => decide (now - ev.timestamp < 300))
    if recent_errors.length > 10 then false else true

/-- One try-in-order loop of `_attempt_recovery` over a list of action
indices: skip actions whose `can_attempt` is false, execute eligible ones
(mutating the store), stop at the first `execute` returning `True`;
exceptions from `execute` are caught and the loop continues.  Returns the
updated store, the indices whose `execute` ran, and the success flag. -/
def attempt_recovery_loop (store : List RecoveryAction) (now : ℚ) (e : ErrorEvent) :
    List ℕ → List RecoveryAction × List ℕ × Bool
  | [] => (store, [], false)
  | i :: rest =>
    let a := store.getD i default
    if a.can_attempt now then
      let r := a.execute now e
      let store' := store.set i r.1
      match r.2 with
      | some true => (store', [i], true)
      | _ =>
        let rec' := attempt_recovery_loop store' now e rest
        (rec'.1, i :: rec'.2.1, rec'.2.2)
    else attempt_recovery_loop store now e rest

/-- `ErrorRecoveryManager._attempt_recovery`: try every action registered for
the error's component, then every action registered as `general` (the two
loops have identical bodies and the first success returns, so they equal one
loop over the concatenated index lists). -/
def attempt_recovery (m : ErrorRecoveryManager) (now : ℚ) (e : ErrorEvent) :
    ErrorRecoveryManager × List ℕ × Bool :=
  let component_actions := (m.component_recoveries.lookup e.component).getD []
  let general_actions := (m.component_recoveries.lookup "general").getD []
  let r := attempt_recovery_loop m.recovery_actions now e
    (component_actions ++ general_actions)
  ({ m with
      recovery_actions := r.1
      resolved_errors := if r.2.2 then m.resolved_errors + 1 else m.resolved_errors },
    r.2.1, r.2.2)

/-- The `ErrorEvent` constructed by `handle_error`. -/
def recorded_event (now : ℚ) (component : String) (severity : ErrorSeverity)
    (message : String) : ErrorEvent :=
  { timestamp := now
    severity := severity
    component := component
    message := message
    recovery_attempts := 0
    resolved := false }

/-- The bounded history after `handle_error` appends its event: one oldest
entry is popped when the capacity is exceeded. -/
def recorded_history (m : ErrorRecoveryManager) (e : ErrorEvent) : List ErrorEvent :=
  let hist := m.error_history ++ [e]
  if hist.length > m.max_history then hist.tail else hist

/-- The manager state after `handle_error` has counted the error and
recorded its event, right before the recovery decision. -/
def post_record (m : ErrorRecoveryManager) (now : ℚ) (component : String)
    (severity : ErrorSeverity) (message : String) : ErrorRecoveryManager :=
  let m := { m with
    total_errors := m.total_errors + 1
    critical_errors :=
      if severity = ErrorSeverity.critical then m.critical_errors + 1
      else m.critical_errors }
  { m with error_history := recorded_history m (recorded_event now component severity message) }

/-- `ErrorRecoveryManager.handle_error(component, error, severity)`: count
the error, record the event in the bounded history, and attempt recovery
when `_should_attempt_recovery` allows it; a successful recovery marks the
(aliased) history event resolved with one recovery attempt.  Returns the new
state and the indices of the actions whose `execute` ran for this error. -/
def handle_error (m : ErrorRecoveryManager) (now : ℚ) (component : String)
    (severity : ErrorSeverity) (message : String) : ErrorRecoveryManager × List ℕ :=
  let e := recorded_event now component severity message
  let m := post_record m now component severity message
  if should_attempt_recovery m now e then
    let r := attempt_recovery m now e
    let m' :=
      if r.2.2 then
        { r.1 with
          error_history := r.1.error_history.dropLast
            ++ [{ e with resolved := true, recovery_attempts := 1 }] }
      else r.1
    (m', r.2.1)
  else (m, [])

/-- A recovery action whose remediation always succeeds. -/
def alwaysWorksAction : RecoveryAction :=
  { name := "restart_miner"
    max_attempts := 3
    cooldown := 60
    last_attempt := 0
    success_count := 0
    failure_count := 0
    recover := fun _ => some true }

/-- An exhausted recovery action: `max_attempts = 3` and three recorded
failures. -/
def exhaustedAction : RecoveryAction :=
  { alwaysWorksAction with failure_count := 3 }

/-- An error event reported by the `miner` component at time 150. -/
def minerEvent : ErrorEvent :=
  { timestamp := 150
    severity := .medium
    component := "miner"
    message := "boom"
    recovery_attempts := 0
    resolved := false }

/-- Manager with 11 recent errors from component `a` and one always-working
action registered for component `b`. -/
def burstManager : ErrorRecoveryManager :=
  { error_history := List.replicate 11
      { timestamp := 100
        severity := ErrorSeverity.medium
        component := "a"
        message := "boom"
        recovery_attempts := 0
        resolved := false }
    max_history := 1000
    recovery_actions := [alwaysWorksAction]
    component_recoveries := [("b", [0])]
    total_errors := 11
    resolved_errors := 0
    critical_errors := 0 }

/-- Manager with a single exhausted action registered for `miner`. -/
def exhaustedManager : ErrorRecoveryManager :=
  { error_history := []
    max_history := 1000
    recovery_actions := [exhaustedAction]
    component_recoveries := [("miner", [0])]
    total_errors := 0
    resolved_errors := 0
    critical_errors := 0 }

end Recovery

end TheMiner

namespace TheMiner

namespace ProfitSwitching

/-- C3 counterexample: `record_switch` appends to the switch-history log
without consulting `min_switch_interval`.  Two recorded switches 1 second
apart land in the history of a switcher whose minimum interval is 300
seconds, refuting the claimed history invariant. -/
theorem c3_counterexample :
    (record_switch (record_switch exampleSwitcher 0 "sha256" "ethash") 1 "ethash"
          "randomx").switch_history
        = [(0, "sha256", "ethash"), (1, "ethash", "randomx")]
      ∧ exampleSwitcher.min_switch_interval = 300
      ∧ (1 : ℚ) - 0 < 300 := by
  refine ⟨by decide, rfl, by norm_num⟩

/-- C3 (amended): the minimum-switch-interval gate lives in `_should_switch`,
not in `record_switch`.  Whenever a current algorithm is set and
`now - last_switch_time < min_switch_interval`, `_should_switch` refuses the
switch for every strategy, every candidate and every profitability input. -/
theorem c3_amended (s : ProfitSwitcher) (now : ℚ) (current new_algorithm : String)
    (hcur : s.current_algorithm = some current)
    (hint : now - s.last_switch_time < s.min_switch_interval) :
    should_switch s now new_algorithm = some false := by
  simp only [should_switch, hcur]
  by_cases h : current = new_algorithm
  · rw [if_pos h]
  · rw [if_neg h, if_pos hint]

/-- Witness for `c3_amended` at a concrete switcher and time. -/
theorem c3_amended_witness :
    should_switch { thresholdSwitcher 115 with last_switch_time := 900 } 1000 "ethash"
      = some false :=
  c3_amended _ 1000 "sha256" "ethash" rfl (by norm_num [thresholdSwitcher, exampleSwitcher])

/-- C7: under the threshold strategy, with a distinct candidate, both
profitability records present, the hysteresis interval elapsed and the
current profit nonzero, `_should_switch` returns exactly the fractional
improvement test `(candidate - current) / current ≥ switch_threshold`. -/
theorem c7_threshold_math (s : ProfitSwitcher) (now : ℚ) (current new_algorithm : String)
    (current_data new_data : ProfitabilityData)
    (h1 : s.switch_strategy = .threshold)
    (h2 : s.current_algorithm = some current)
    (h3 : current ≠ new_algorithm)
    (h4 : s.min_switch_interval ≤ now - s.last_switch_time)
    (h5 : s.profitability_data.lookup current = some current_data)
    (h6 : s.profitability_data.lookup new_algorithm = some new_data)
    (h7 : current_data.profit_per_hour ≠ 0) :
    should_switch s now new_algorithm
      = some (decide ((new_data.profit_per_hour - current_data.profit_per_hour)
          / current_data.profit_per_hour ≥ s.switch_threshold)) := by
  simp only [should_switch, h2, h5, h6, h1]
  rw [if_neg h3, if_neg (not_lt.mpr h4), if_neg h7]

/-- Witness for `c7_threshold_math`: current profit 100, threshold 0.1;
candidate profit 115 switches, candidate profit 105 does not. -/
theorem c7_threshold_math_witness :
    should_switch (thresholdSwitcher 115) 1000 "ethash" = some true
      ∧ should_switch (thresholdSwitcher 105) 1000 "ethash" = some false := by
  constructor
  · rw [c7_threshold_math (thresholdSwitcher 115) 1000 "sha256" "ethash"
      (mkData "sha256" 100) (mkData "ethash" 115) rfl rfl (by decide)
      (by norm_num [thresholdSwitcher, exampleSwitcher]) rfl rfl
      (by norm_num [mkData])]
    norm_num [mkData, thresholdSwitcher, exampleSwitcher]
  · rw [c7_threshold_math (thresholdSwitcher 105) 1000 "sha256" "ethash"
      (mkData "sha256" 100) (mkData "ethash" 105) rfl rfl (by decide)
      (by norm_num [thresholdSwitcher, exampleSwitcher]) rfl rfl
      (by norm_num [mkData])]
    norm_num [mkData, thresholdSwitcher, exampleSwitcher]

/-- C8: whenever the retrieved profit history of the current algorithm or of
the candidate has fewer than 3 samples, the predictive strategy decides
exactly as the threshold strategy would on the same state. -/
theorem c8_predictive_fallback (s : ProfitSwitcher) (now : ℚ)
    (current new_algorithm : String) (current_data new_data : ProfitabilityData)
    (hstrat : s.switch_strategy = .predictive)
    (h2 : s.current_algorithm = some current)
    (h5 : s.profitability_data.lookup current = some current_data)
    (h6 : s.profitability_data.lookup new_algorithm = some new_data)
    (hhist : (get_algorithm_history s now current_data.algorithm 30).length < 3
      ∨ (get_algorithm_history s now new_data.algorithm 30).length < 3) :
    should_switch s now new_algorithm
      = should_switch { s with switch_strategy := .threshold } now new_algorithm := by
  simp only [should_switch, h2, h5, h6, hstrat]
  by_cases h : current = new_algorithm
  · rw [if_pos h, if_pos h]
  · rw [if_neg h, if_neg h]
    by_cases hint : now - s.last_switch_time < s.min_switch_interval
    · rw [if_pos hint, if_pos hint]
    · rw [if_neg hint, if_neg hint]
      simp only [predictive_switch_decision]
      rw [if_pos hhist]

/-- Witness for `c8_predictive_fallback`: with an empty switch history both
profit histories are empty, and the predictive switcher decides exactly as
its threshold-strategy counterpart. -/
theorem c8_predictive_fallback_witness :
    should_switch predictiveSwitcher 1000 "ethash"
      = should_switch { predictiveSwitcher with switch_strategy := .threshold } 1000 "ethash" :=
  c8_predictive_fallback predictiveSwitcher 1000 "sha256" "ethash"
    (mkData "sha256" 100) (mkData "ethash" 115) rfl rfl rfl rfl
    (Or.inl (by decide))

/-- C10: the improvement computation divides by the current algorithm's
`profit_per_hour` with no zero guard.  Under the threshold and gradual
strategies and the predictive insufficient-history fallback, with all other
guards passed, `_should_switch` returns a boolean when that profit is
nonzero, and raises `ZeroDivisionError` (modelled as `none`) when it is
zero. -/
theorem c10_division_by_zero (s : ProfitSwitcher) (now : ℚ)
    (current new_algorithm : String) (current_data new_data : ProfitabilityData)
    (hstrat : s.switch_strategy = .threshold ∨ s.switch_strategy = .gradual
      ∨ (s.switch_strategy = .predictive
          ∧ ((get_algorithm_history s now current_data.algorithm 30).length < 3
             ∨ (get_algorithm_history s now new_data.algorithm 30).length < 3)))
    (h2 : s.current_algorithm = some current)
    (h3 : current ≠ new_algorithm)
    (h4 : s.min_switch_interval ≤ now - s.last_switch_time)
    (h5 : s.profitability_data.lookup current = some current_data)
    (h6 : s.profitability_data.lookup new_algorithm = some new_data) :
    (current_data.profit_per_hour ≠ 0 → (should_switch s now new_algorithm).isSome = true)
      ∧ (current_data.profit_per_hour = 0 → should_switch s now new_algorithm = none) := by
  simp only [should_switch, h2, h5, h6]
  rw [if_neg h3, if_neg (not_lt.mpr h4)]
  rcases hstrat with h | h | ⟨h, hh⟩ <;> simp only [h]
  · exact ⟨fun hz => by rw [if_neg hz]; rfl, fun hz => by rw [if_pos hz]⟩
  · exact ⟨fun hz => by rw [if_neg hz]; rfl, fun hz => by rw [if_pos hz]⟩
  · simp only [predictive_switch_decision]
    rw [if_pos hh]
    exact ⟨fun hz => by rw [if_neg hz]; rfl, fun hz => by rw [if_pos hz]⟩

/-- Witness for `c10_division_by_zero`: a zero current profit makes the
threshold decision raise; a nonzero one yields a boolean. -/
theorem c10_division_by_zero_witness :
    should_switch zeroProfitSwitcher 1000 "ethash" = none
      ∧ (should_switch (thresholdSwitcher 115) 1000 "ethash").isSome = true := by
  constructor
  · exact (c10_division_by_zero zeroProfitSwitcher 1000 "sha256" "ethash"
      (mkData "sha256" 0) (mkData "ethash" 115) (Or.inl rfl) rfl (by decide)
      (by norm_num [zeroProfitSwitcher, exampleSwitcher]) rfl rfl).2 rfl
  · exact (c10_division_by_zero (thresholdSwitcher 115) 1000 "sha256" "ethash"
      (mkData "sha256" 100) (mkData "ethash" 115) (Or.inl rfl) rfl (by decide)
      (by norm_num [thresholdSwitcher, exampleSwitcher]) rfl rfl).1
      (by norm_num [mkData])

end ProfitSwitching

namespace Alerting

lemma eq_of_mem_of_nodup_keys {l : List (String × Alert)}
    (h : (l.map Prod.fst).Nodup) {p q : String × Alert}
    (hp : p ∈ l) (hq : q ∈ l) (hk : p.1 = q.1) : p = q := by
  induction l with
  | nil => cases hp
  | cons x xs ih =>
    have h' : x.1 ∉ xs.map Prod.fst ∧ (xs.map Prod.fst).Nodup := by
      rw [List.map_cons, List.nodup_cons] at h
      exact h
    rcases List.mem_cons.mp hp with hpx | hpx
    · rcases List.mem_cons.mp hq with hqx | hqx
      · rw [hpx, hqx]
      · exfalso
        apply h'.1
        rw [← hpx, hk]
        exact List.mem_map_of_mem Prod.fst hqx
    · rcases List.mem_cons.mp hq with hqx | hqx
      · exfalso
        apply h'.1
        rw [← hqx, ← hk]
        exact List.mem_map_of_mem Prod.fst hpx
      · exact ih h'.2 hpx hqx

lemma foldl_send_notifications (lst : List Alert) (s : AlertingSystem) :
    (lst.foldl (fun acc a => send_notifications acc a) s).notifications
        = s.notifications ++ lst.flatMap (fun a => s.alert_channels.map (fun c => (c, a)))
      ∧ (lst.foldl (fun acc a => send_notifications acc a) s).active_alerts
        = s.active_alerts
      ∧ (lst.foldl (fun acc a => send_notifications acc a) s).alert_history
        = s.alert_history := by
  induction lst generalizing s with
  | nil => simp
  | cons a rest ih =>
    simp only [List.foldl_cons, List.flatMap_cons]
    refine ⟨?_, ?_, ?_⟩
    · rw [(ih (send_notifications s a)).1]
      simp [send_notifications, List.append_assoc]
    · rw [(ih (send_notifications s a)).2.1]
      rfl
    · rw [(ih (send_notifications s a)).2.2]
      rfl

/-- C1 counterexample: the active set is keyed by the generated alert id
(rule name plus truncated trigger second), not by rule identity.  A custom
zero-cooldown rule whose condition stays true fires in two consecutive
monitoring iterations (times 100 and 130) while its first alert is still
active, and the active set then holds two alerts governed by that rule. -/
theorem c1_counterexample :
    count_active_with_title
        (monitoring_iteration (monitoring_iteration miningSystem 100 miningDownMetrics)
          130 miningDownMetrics) "Mining Watch" = 2 := by
  norm_num [count_active_with_title, monitoring_iteration, run_alert_rules,
    check_resolved_alerts, handle_alert, send_notifications, dictInsert,
    resolve_decision, AlertRule.should_trigger, AlertRule.trigger, miningSystem,
    miningWatchRule, miningDownMetrics, pyInt, List.foldl, List.filterMap,
    List.filter, List.find?]

/-- C1 (amended): `_handle_alert` keys the active set by the generated alert
id; handling an alert whose id is not yet a key appends a new entry, so the
count of active alerts carrying the firing rule's title grows by one — a
second firing of a rule whose alert is still active duplicates it whenever
the two generated ids differ (distinct truncated trigger seconds). -/
theorem c1_amended (s : AlertingSystem) (a : Alert)
    (hfresh : (s.active_alerts.map Prod.fst).contains a.id = false) :
    count_active_with_title (handle_alert s a) a.title
      = count_active_with_title s a.title + 1 := by
  have h1 : dictInsert s.active_alerts a.id a = s.active_alerts ++ [(a.id, a)] := by
    rw [dictInsert, if_neg]
    simp only [hfresh]
    exact Bool.false_ne_true
  simp [handle_alert, send_notifications, count_active_with_title, h1,
    List.filter_append]

/-- Witness for `c1_amended`: handling the CPU alert in the empty-active-set
system grows that rule's active count from 0 to 1. -/
theorem c1_amended_witness :
    count_active_with_title (handle_alert miningSystem firedCpuAlert) firedCpuAlert.title
      = count_active_with_title miningSystem firedCpuAlert.title + 1 :=
  c1_amended miningSystem firedCpuAlert rfl

/-- C2 counterexample: `_check_resolved_alerts` resolves through the
governing rule's `should_trigger`, which is false during the rule's cooldown
even while the rule's condition still holds.  At time 130, thirty seconds
after the CPU rule fired, CPU is still at 96% (condition true) yet the alert
is resolved and removed from the active set, refuting "resolves iff the
condition evaluates false". -/
theorem c2_counterexample :
    (check_resolved_alerts cpuSystem 130 highCpuMetrics).active_alerts = []
      ∧ firedCpuRule.evaluate_condition highCpuMetrics = true := by
  constructor <;>
  norm_num [check_resolved_alerts, resolve_decision, AlertRule.should_trigger,
    send_notifications, cpuSystem, firedCpuRule, firedCpuAlert, CPUAlertRule,
    AlertRule.trigger, highCpuMetrics, pyInt, List.filterMap, List.filter,
    List.find?, List.foldl]

/-- C2 (amended): on a reconciliation pass an active alert transitions to
resolved iff the first registered rule whose name equals the alert's title
reports `should_trigger = false` on the metrics (condition false, or rule in
cooldown, or rule suppressed) — `resolve_decision` is exactly that test.  On
that transition the alert leaves the active set, the history is untouched
(so the alert's history record is retained), the resolved record carries
`resolved_timestamp = now ≥` the trigger timestamp, and exactly one
resolution notification is dispatched per registered channel for each
resolved alert. -/
theorem c2_amended (s : AlertingSystem) (now : ℚ) (metrics : MetricsData)
    (p : String × Alert) (hp : p ∈ s.active_alerts)
    (hnd : (s.active_alerts.map Prod.fst).Nodup)
    (hmono : p.2.timestamp ≤ now) :
    (resolve_decision s.alert_rules now metrics p.2 = none →
        p ∈ (check_resolved_alerts s now metrics).active_alerts)
      ∧ (∀ a', resolve_decision s.alert_rules now metrics p.2 = some a' →
          (∀ q ∈ (check_resolved_alerts s now metrics).active_alerts, q.1 ≠ p.1)
          ∧ a'.status = .resolved
          ∧ a'.resolved_timestamp = some now
          ∧ a'.id = p.2.id ∧ a'.timestamp = p.2.timestamp
          ∧ ∃ rt, a'.resolved_timestamp = some rt ∧ p.2.timestamp ≤ rt)
      ∧ (check_resolved_alerts s now metrics).alert_history = s.alert_history
      ∧ (check_resolved_alerts s now metrics).notifications
          = s.notifications
            ++ (s.active_alerts.filterMap
                  (fun q => resolve_decision s.alert_rules now metrics q.2)).flatMap
                (fun a => s.alert_channels.map (fun c => (c, a))) := by
  refine ⟨?_, ?_, ?_, ?_⟩
  · intro hdec
    simp only [check_resolved_alerts]
    exact List.mem_filter.mpr ⟨hp, by simp [hdec]⟩
  · intro a' hdec
    refine ⟨?_, ?_, ?_, ?_, ?_, ?_⟩
    · intro q hq hkey
      simp only [check_resolved_alerts] at hq
      have hq' := List.mem_filter.mp hq
      have : q = p := eq_of_mem_of_nodup_keys hnd hq'.1 hp hkey
      rw [this, hdec] at hq'
      simp at hq'
    all_goals
      simp only [resolve_decision] at hdec
      rcases hfind : s.alert_rules.find? (fun r => r.name == p.2.title) with _ | rule
      · simp only [hfind] at hdec
        cases hdec
      · simp only [hfind] at hdec
        by_cases htrig : rule.should_trigger now metrics = true
        · rw [if_pos htrig] at hdec; cases hdec
        · rw [if_neg htrig] at hdec
          cases hdec
          first
            | rfl
            | exact ⟨now, rfl, hmono⟩
  · simp only [check_resolved_alerts]
    exact (foldl_send_notifications _ s).2.2
  · simp only [check_resolved_alerts]
    exact (foldl_send_notifications _ s).1

/-- Witness for `c2_amended` at the fired-CPU-alert system. -/
theorem c2_amended_witness :
    (check_resolved_alerts cpuSystem 130 highCpuMetrics).alert_history
      = cpuSystem.alert_history :=
  (c2_amended cpuSystem 130 highCpuMetrics (firedCpuAlert.id, firedCpuAlert)
      (by simp [cpuSystem]) (by simp [cpuSystem])
      (by norm_num [firedCpuAlert, AlertRule.trigger, CPUAlertRule])).2.2.1

/-- C4: `should_trigger` is false inside the cooldown window and inside a
suppression window, and therefore two firings of the same rule less than one
cooldown apart are never both accepted: after an accepted `trigger` at `t1`,
`should_trigger` at any `t2` with `t2 - t1 < cooldown` is false. -/
theorem c4_cooldown_invariant (r : AlertRule) (t1 t2 : ℚ) (m1 m2 : MetricsData) :
    (∀ now m, now - r.last_triggered < r.cooldown → r.should_trigger now m = false)
      ∧ (∀ now m, now < r.suppressed_until → r.should_trigger now m = false)
      ∧ (t2 - t1 < r.cooldown → r.should_trigger t1 m1 = true →
          ((r.trigger t1).1).should_trigger t2 m2 = false) := by
  refine ⟨?_, ?_, ?_⟩
  · intro now m h
    simp [AlertRule.should_trigger, if_pos h]
  · intro now m h
    by_cases hcd : now - r.last_triggered < r.cooldown
    · simp [AlertRule.should_trigger, if_pos hcd]
    · simp [AlertRule.should_trigger, if_neg hcd, if_pos h]
  · intro h _
    simp [AlertRule.trigger, AlertRule.should_trigger, if_pos h]

/-- Witness for `c4_cooldown_invariant`: the CPU rule accepts a firing at
time 1000 but refuses the next one 100 seconds later (cooldown 300). -/
theorem c4_cooldown_invariant_witness :
    (CPUAlertRule 85).should_trigger 1000 highCpuMetrics = true
      ∧ (((CPUAlertRule 85).trigger 1000).1).should_trigger 1100 highCpuMetrics = false := by
  constructor
  · norm_num [CPUAlertRule, AlertRule.should_trigger, highCpuMetrics]
  · exact (c4_cooldown_invariant (CPUAlertRule 85) 1000 1100 highCpuMetrics
      highCpuMetrics).2.2 (by norm_num [CPUAlertRule])
      (by norm_num [CPUAlertRule, AlertRule.should_trigger, highCpuMetrics])

end Alerting

namespace Scaling

lemma execute_scale_gate_fail {σ : Type} (p : ScalingPolicy σ) (now : ℚ)
    (metrics : ResourceMetrics) (h : p.should_scale now metrics = false) :
    p.execute_scale now metrics = (p, false) := by
  simp [ScalingPolicy.execute_scale, h]

lemma execute_scale_success {σ : Type} (p : ScalingPolicy σ) (now : ℚ)
    (metrics : ResourceMetrics) (st : σ)
    (hg : p.should_scale now metrics = true)
    (ha : p.scale_action p.state metrics = (st, true)) :
    p.execute_scale now metrics
      = ({ p with state := st, last_action := now, action_count := p.action_count + 1 },
          true) := by
  simp [ScalingPolicy.execute_scale, hg, ha]

lemma execute_scale_action_fail {σ : Type} (p : ScalingPolicy σ) (now : ℚ)
    (metrics : ResourceMetrics) (st : σ)
    (hg : p.should_scale now metrics = true)
    (ha : p.scale_action p.state metrics = (st, false)) :
    p.execute_scale now metrics = ({ p with state := st }, false) := by
  simp [ScalingPolicy.execute_scale, hg, ha]

/-- C9: a CPU policy (threshold 85, cooldown 120) in its initial state, fed a
snapshot with CPU at 96%: the first `execute_scale` reduces the thread count
by exactly one and succeeds; an immediate second call is refused by the
cooldown and changes nothing.  Moreover a CPU policy at the 1-thread floor
and an intensity policy at the 0.3 floor report failure and leave the
configuration, the cooldown clock and the action counter untouched. -/
theorem c9_cpu_scaling :
    (∀ (now : ℚ) (metrics : ResourceMetrics) (config : MinerConfig),
        120 ≤ now → metrics.cpu_percent = 96 → 2 ≤ config.cpu_threads →
        ((CPUScalingPolicy config).execute_scale now metrics).2 = true
        ∧ ((CPUScalingPolicy config).execute_scale now metrics).1.state.1.cpu_threads
            = config.cpu_threads - 1
        ∧ (((CPUScalingPolicy config).execute_scale now metrics).1.execute_scale
            now metrics).2 = false
        ∧ (((CPUScalingPolicy config).execute_scale now metrics).1.execute_scale
            now metrics).1.state.1.cpu_threads = config.cpu_threads - 1)
      ∧ (∀ (p : ScalingPolicy (MinerConfig × Option ℤ)) (now : ℚ)
            (metrics : ResourceMetrics),
          p.scale_action = cpu_scale_action → p.state.1.cpu_threads = 1 →
          (p.execute_scale now metrics).2 = false
          ∧ (p.execute_scale now metrics).1.state.1.cpu_threads = 1
          ∧ (p.execute_scale now metrics).1.last_action = p.last_action
          ∧ (p.execute_scale now metrics).1.action_count = p.action_count)
      ∧ (∀ (p : ScalingPolicy (MinerConfig × Option ℚ)) (now : ℚ)
            (metrics : ResourceMetrics),
          p.scale_action = intensity_scale_action → p.state.1.intensity = 3 / 10 →
          (p.execute_scale now metrics).2 = false
          ∧ (p.execute_scale now metrics).1.state.1.intensity = 3 / 10
          ∧ (p.execute_scale now metrics).1.last_action = p.last_action
          ∧ (p.execute_scale now metrics).1.action_count = p.action_count) := by
  refine ⟨?_, ?_, ?_⟩
  · intro now metrics config hnow hcpu hth
    have hgate : (CPUScalingPolicy config).should_scale now metrics = true := by
      simp only [ScalingPolicy.should_scale, CPUScalingPolicy]
      rw [if_neg (by rw [sub_zero]; exact not_lt.mpr hnow)]
      rw [hcpu]
      norm_num
    have haction : cpu_scale_action (config, none) metrics
        = (({ config with cpu_threads := config.cpu_threads - 1 },
            some config.cpu_threads), true) := by
      simp only [cpu_scale_action]
      rw [max_eq_right (by omega), if_pos (by omega)]
    have h1 := execute_scale_success (CPUScalingPolicy config) now metrics _ hgate haction
    have hgate2 : (((CPUScalingPolicy config).execute_scale now metrics).1).should_scale
        now metrics = false := by
      rw [h1]
      simp only [ScalingPolicy.should_scale, CPUScalingPolicy]
      rw [if_pos (by rw [sub_self]; norm_num [CPUScalingPolicy])]
    have h2 := execute_scale_gate_fail _ now metrics hgate2
    rw [h1] at h2 ⊢
    rw [h2]
    exact ⟨rfl, rfl, rfl, rfl⟩
  · intro p now metrics hact hfloor
    have haction : ∃ o, p.scale_action p.state metrics = ((p.state.1, o), false) := by
      rw [hact]
      simp only [cpu_scale_action, hfloor]
      rw [if_neg (by norm_num)]
      exact ⟨_, rfl⟩
    rcases haction with ⟨o, haction⟩
    by_cases hg : p.should_scale now metrics = true
    · rw [execute_scale_action_fail p now metrics _ hg haction]
      exact ⟨rfl, hfloor, rfl, rfl⟩
    · rw [execute_scale_gate_fail p now metrics (by simpa using hg)]
      exact ⟨rfl, hfloor, rfl, rfl⟩
  · intro p now metrics hact hfloor
    have haction : ∃ o, p.scale_action p.state metrics = ((p.state.1, o), false) := by
      rw [hact]
      simp only [intensity_scale_action, hfloor]
      rw [if_neg (by norm_num)]
      exact ⟨_, rfl⟩
    rcases haction with ⟨o, haction⟩
    by_cases hg : p.should_scale now metrics = true
    · rw [execute_scale_action_fail p now metrics _ hg haction]
      exact ⟨rfl, hfloor, rfl, rfl⟩
    · rw [execute_scale_gate_fail p now metrics (by simpa using hg)]
      exact ⟨rfl, hfloor, rfl, rfl⟩

/-- Witness for `c9_cpu_scaling` on the default configuration at time 1000:
the thread count drops from 4 to 3, the immediate retry fails, and the floor
policies refuse. -/
theorem c9_cpu_scaling_witness :
    ((CPUScalingPolicy defaultConfig).execute_scale 1000 cpu96Metrics).2 = true
      ∧ ((CPUScalingPolicy defaultConfig).execute_scale 1000
          cpu96Metrics).1.state.1.cpu_threads = 3
      ∧ (((CPUScalingPolicy defaultConfig).execute_scale 1000 cpu96Metrics).1.execute_scale
          1000 cpu96Metrics).2 = false
      ∧ ((CPUScalingPolicy { defaultConfig with cpu_threads := 1 }).execute_scale 1000
          cpu96Metrics).2 = false
      ∧ ((IntensityScalingPolicy { defaultConfig with intensity := 3 / 10 }).execute_scale
          1000 cpu96Metrics).2 = false := by
  have h := c9_cpu_scaling
  have hmain := h.1 1000 cpu96Metrics defaultConfig (by norm_num)
    (by norm_num [cpu96Metrics]) (by norm_num [defaultConfig])
  refine ⟨hmain.1, ?_, hmain.2.2.1, ?_, ?_⟩
  · rw [hmain.2.1]
    norm_num [defaultConfig]
  · exact (h.2.1 (CPUScalingPolicy { defaultConfig with cpu_threads := 1 }) 1000
      cpu96Metrics rfl rfl).1
  · exact (h.2.2 (IntensityScalingPolicy { defaultConfig with intensity := 3 / 10 }) 1000
      cpu96Metrics rfl rfl).1

end Scaling

namespace Recovery

lemma can_attempt_exhausted (a : RecoveryAction) (now : ℚ)
    (h : a.max_attempts ≤ a.failure_count) : a.can_attempt now = false := by
  have : ¬ a.failure_count < a.max_attempts := by omega
  simp [RecoveryAction.can_attempt, this]

lemma execute_exhausted (a : RecoveryAction) (now : ℚ) (e : ErrorEvent)
    (h : a.max_attempts ≤ a.failure_count) :
    a.execute now e = (a, some false) := by
  simp [RecoveryAction.execute, can_attempt_exhausted a now h]

lemma getD_set_ne_action (l : List RecoveryAction) (j i : ℕ) (v : RecoveryAction)
    (h : i ≠ j) : (l.set j v).getD i default = l.getD i default := by
  simp [List.getD_eq_getElem?_getD, List.getElem?_set_ne (Ne.symm h)]

lemma execute_failure_monotone (a : RecoveryAction) (now : ℚ) (e : ErrorEvent) :
    a.failure_count ≤ ((a.execute now e).1).failure_count := by
  by_cases hc : a.can_attempt now = true
  · simp only [RecoveryAction.execute, hc, if_true]
    rcases hr : a.recover e with _ | b
    · simp
    · rcases b <;> simp
  · simp [RecoveryAction.execute, hc]

lemma loop_skips_exhausted (now : ℚ) (e : ErrorEvent) (i : ℕ)
    (idxs : List ℕ) :
    ∀ store : List RecoveryAction,
      (store.getD i default).max_attempts ≤ (store.getD i default).failure_count →
      i ∉ (attempt_recovery_loop store now e idxs).2.1 := by
  induction idxs with
  | nil =>
    intro store _
    simp [attempt_recovery_loop]
  | cons j rest ih =>
    intro store hex
    by_cases hij : i = j
    · subst hij
      have : (store.getD i default).can_attempt now = false :=
        can_attempt_exhausted _ now hex
      simp only [attempt_recovery_loop, this]
      exact ih store hex
    · have hset : ∀ v, ((store.set j v).getD i default) = store.getD i default :=
        fun v => getD_set_ne_action store j i v hij
      simp only [attempt_recovery_loop]
      by_cases hca : (store.getD j default).can_attempt now = true
      · simp only [hca, if_true]
        rcases hr : ((store.getD j default).execute now e).2 with _ | b
        · simp only [hr]
          intro hmem
          rcases List.mem_cons.mp hmem with h' | h'
          · exact hij h'
          · exact ih _ (by rw [hset]; exact hex) h'
        · rcases b
          · simp only [hr]
            intro hmem
            rcases List.mem_cons.mp hmem with h' | h'
            · exact hij h'
            · exact ih _ (by rw [hset]; exact hex) h'
          · simp only [hr]
            intro hmem
            rcases List.mem_singleton.mp hmem with h'
            exact hij h'
      · simp only [hca, if_false]
        exact ih store hex

/-- C5 counterexample: the burst gate of `_should_attempt_recovery` counts
recent errors of every component, not only those of the failing component.
With 11 recent errors from component `a`, a fresh medium-severity error from
component `b` — whose own recent count is 0 and which has an eligible,
always-succeeding action registered — triggers no recovery action at all,
refuting the component-scoped reading. -/
theorem c5_counterexample :
    (handle_error burstManager 150 "b" .medium "disk error").2 = []
      ∧ (burstManager.error_history.filter
          (fun ev => ev.component == "b" && decide ((150 : ℚ) - ev.timestamp < 300))).length
          = 0
      ∧ alwaysWorksAction.can_attempt 150 = true := by
  refine ⟨?_, by decide, ?_⟩
  · norm_num [handle_error, post_record, should_attempt_recovery, recorded_event,
      recorded_history, burstManager, List.replicate, String.reduceBEq, String.reduceEq]
  · norm_num [RecoveryAction.can_attempt, alwaysWorksAction]

lemma should_attempt_recovery_eq (m : ErrorRecoveryManager) (now : ℚ) (e : ErrorEvent) :
    should_attempt_recovery m now e
      = (!(decide (e.severity = ErrorSeverity.critical))
          && !(decide ((m.error_history.filter
              (fun ev => decide (now - ev.timestamp < 300))).length > 10))) := by
  simp only [should_attempt_recovery]
  by_cases h1 : e.severity = ErrorSeverity.critical
  · simp [h1]
  · by_cases h2 : (m.error_history.filter
        (fun ev => decide (now - ev.timestamp < 300))).length > 10
    · simp [h1, h2]
    · simp [h1, h2]

/-- C5 (amended): `handle_error` skips recovery for critical errors and
whenever strictly more than 10 events of any component (the just-recorded
one included) sit in the trimmed history younger than 5 minutes; otherwise
it runs the try-in-order loop over the actions registered for the error's
component followed by those registered as `general`.  That loop skips
ineligible actions, executes eligible ones in order, and stops at the first
`execute` that returns success (an exception counts as failure and the loop
continues). -/
theorem c5_recovery_eligibility (m : ErrorRecoveryManager) (now : ℚ)
    (component : String) (sev : ErrorSeverity) (msg : String) :
    ((sev = .critical
        ∨ (((post_record m now component sev msg).error_history.filter
            (fun ev => decide (now - ev.timestamp < 300))).length > 10)) →
      (handle_error m now component sev msg).2 = [])
    ∧ ((sev ≠ .critical
        ∧ (((post_record m now component sev msg).error_history.filter
            (fun ev => decide (now - ev.timestamp < 300))).length ≤ 10)) →
      (handle_error m now component sev msg).2
        = (attempt_recovery_loop m.recovery_actions now
            (recorded_event now component sev msg)
            (((m.component_recoveries.lookup component).getD [])
              ++ ((m.component_recoveries.lookup "general").getD []))).2.1)
    ∧ (∀ (store : List RecoveryAction) (t : ℚ) (e : ErrorEvent) (i : ℕ)
          (rest : List ℕ),
        (store.getD i default).can_attempt t = true →
        ((store.getD i default).execute t e).2 = some true →
        (attempt_recovery_loop store t e (i :: rest)).2.1 = [i])
    ∧ (∀ (store : List RecoveryAction) (t : ℚ) (e : ErrorEvent) (i : ℕ)
          (rest : List ℕ),
        (store.getD i default).can_attempt t = true →
        ((store.getD i default).execute t e).2 ≠ some true →
        (attempt_recovery_loop store t e (i :: rest)).2.1
          = i :: (attempt_recovery_loop
              (store.set i ((store.getD i default).execute t e).1) t e rest).2.1)
    ∧ (∀ (store : List RecoveryAction) (t : ℚ) (e : ErrorEvent) (i : ℕ)
          (rest : List ℕ),
        (store.getD i default).can_attempt t = false →
        attempt_recovery_loop store t e (i :: rest)
          = attempt_recovery_loop store t e rest) := by
  refine ⟨?_, ?_, ?_, ?_, ?_⟩
  · intro hgate
    have hfalse : should_attempt_recovery (post_record m now component sev msg) now
        (recorded_event now component sev msg) = false := by
      rw [should_attempt_recovery_eq]
      rcases hgate with hc | hb
      · simp [recorded_event, hc]
      · simp [hb]
    simp only [handle_error]
    rw [if_neg (by simp [hfalse])]
  · intro hgate
    have htrue : should_attempt_recovery (post_record m now component sev msg) now
        (recorded_event now component sev msg) = true := by
      rw [should_attempt_recovery_eq]
      have h2 : ¬ (((post_record m now component sev msg).error_history.filter
          (fun ev => decide (now - ev.timestamp < 300))).length > 10) :=
        not_lt.mpr hgate.2
      simp [recorded_event, hgate.1, h2]
    simp only [handle_error]
    rw [if_pos htrue]
    rfl
  · intro store t e i rest hca hsucc
    simp only [attempt_recovery_loop, hca, if_true, hsucc]
  · intro store t e i rest hca hfail
    rcases hr : ((store.getD i default).execute t e).2 with _ | b
    · simp only [attempt_recovery_loop, hca, if_true, hr]
    · rcases b
      · simp only [attempt_recovery_loop, hca, if_true, hr]
      · rw [hr] at hfail
        exact absurd rfl hfail
  · intro store t e i rest hca
    simp only [attempt_recovery_loop, hca]
    rfl

/-- Witness for `c5_recovery_eligibility`: the burst manager refuses
recovery through the amended (all-components) gate. -/
theorem c5_recovery_eligibility_witness :
    (handle_error burstManager 150 "b" .medium "boom again").2 = [] :=
  (c5_recovery_eligibility burstManager 150 "b" .medium "boom again").1
    (Or.inr (by norm_num [post_record, recorded_history, recorded_event, burstManager,
      List.replicate]))

/-- C6: a `RecoveryAction` whose `failure_count` has reached `max_attempts`
is permanently ineligible: `can_attempt` is false at every later time,
`execute` refuses without running the remediation and leaves the action
unchanged, `execute` never decreases the failure counter (there is no reset
path), and `handle_error` never invokes such an action regardless of elapsed
cooldown. -/
theorem c6_recovery_exhaustion :
    (∀ (a : RecoveryAction) (now : ℚ),
        a.max_attempts ≤ a.failure_count → a.can_attempt now = false)
      ∧ (∀ (a : RecoveryAction) (now : ℚ) (e : ErrorEvent),
          a.max_attempts ≤ a.failure_count → a.execute now e = (a, some false))
      ∧ (∀ (a : RecoveryAction) (now : ℚ) (e : ErrorEvent),
          a.failure_count ≤ ((a.execute now e).1).failure_count)
      ∧ (∀ (m : ErrorRecoveryManager) (now : ℚ) (component : String)
            (sev : ErrorSeverity) (msg : String) (i : ℕ),
          (m.recovery_actions.getD i default).max_attempts
              ≤ (m.recovery_actions.getD i default).failure_count →
          i ∉ (handle_error m now component sev msg).2) := by
  refine ⟨can_attempt_exhausted, execute_exhausted, execute_failure_monotone, ?_⟩
  intro m now component sev msg i hex
  simp only [handle_error]
  by_cases hgate : should_attempt_recovery (post_record m now component sev msg) now
      (recorded_event now component sev msg) = true
  · rw [if_pos hgate]
    simp only [attempt_recovery]
    exact loop_skips_exhausted now _ i _ m.recovery_actions hex
  · rw [if_neg hgate]
    simp

/-- Witness for `c6_recovery_exhaustion`: the exhausted action (3 failures,
`max_attempts = 3`) is refused at time 1000 and is not invoked by a new
`handle_error` call for its component. -/
theorem c6_recovery_exhaustion_witness :
    exhaustedAction.can_attempt 1000 = false
      ∧ exhaustedAction.execute 1000 minerEvent = (exhaustedAction, some false)
      ∧ exhaustedAction.failure_count
          ≤ ((exhaustedAction.execute 1000 minerEvent).1).failure_count
      ∧ 0 ∉ (handle_error exhaustedManager 1000 "miner" .medium "again").2 :=
  ⟨c6_recovery_exhaustion.1 exhaustedAction 1000 (by decide),
   c6_recovery_exhaustion.2.1 exhaustedAction 1000 minerEvent (by decide),
   c6_recovery_exhaustion.2.2.1 exhaustedAction 1000 minerEvent,
   c6_recovery_exhaustion.2.2.2 exhaustedManager 1000 "miner" .medium "again" 0
     (by decide)⟩

end Recovery

end TheMiner
